import Mathlib

/-!
Verification of the file-profiling and PII-detection engine of the
data-catalog web application (`backend/utils/excel_processor.py`, plus the
name-based classification in `backend/routes/field_compliance.py`).

The Python code is shallowly embedded: pandas Series/DataFrame values become
explicit lists of cells, Python floats become exact rationals (`ℚ`), raised
exceptions become `Except` values, and the filesystem / pandas readers are
abstracted as explicit inputs.  Machine-level float behaviour (binary
rounding of `round`, NaN payloads) is idealised over `ℚ`; `None` and float
NaN are both modelled as `Option.none` where a statistic can be absent.
-/

/-! ## String utilities (Python `str.lower`, substring test, `os.path.splitext`) -/

/-- Lower-case a string character by character (Python `str.lower()` for the
ASCII names appearing here). -/
def toLowerStr (s : String) : String :=
  String.mk (s.data.map Char.toLower)

/-- Does `hay` start with `needle` (character lists)? -/
def startsWithChars : List Char → List Char → Bool
  | [], _ => true
  | _ :: _, [] => false
  | n :: ns, h :: hs => n == h && startsWithChars ns hs

/-- Does `hay` contain `needle` as a contiguous substring (character lists)?
Python `needle in hay`. -/
def hasSubChars (needle : List Char) : List Char → Bool
  | [] => startsWithChars needle []
  | c :: t => startsWithChars needle (c :: t) || hasSubChars needle t

/-- Python `needle in hay` on strings. -/
def hasSub (hay needle : String) : Bool :=
  hasSubChars needle.data hay.data

/-- The extension part of `os.path.splitext(p)[1]` (POSIX separators):
the suffix starting at the last dot of the basename, provided at least one
earlier character of the basename is not a dot (leading dots never start an
extension). -/
def pySplitextExt (p : String) : String :=
  let base := p.data.foldl (fun acc c => if c == '/' then [] else acc ++ [c]) []
  let rest := base.dropWhile (fun c => c == '.')
  let revTail := rest.reverse.takeWhile (fun c => c != '.')
  if revTail.length < rest.length then String.mk ('.' :: revTail.reverse) else ""

/-- `os.path.basename` for POSIX separators. -/
def pyBasename (p : String) : String :=
  String.mk (p.data.foldl (fun acc c => if c == '/' then [] else acc ++ [c]) [])

/-! ## Python `round` (banker's rounding) over `ℚ` -/

/-- Floor of a rational as an integer (`⌊q⌋`), via floor division of the
numerator by the denominator. -/
def ratFloor (q : ℚ) : Int :=
  Int.fdiv q.num (q.den : Int)

/-- Round a rational to the nearest integer, ties to even (Python's `round`
on an exact value). -/
def pyRoundInt (q : ℚ) : Int :=
  let f := ratFloor q
  let frac := q - (f : ℚ)
  if frac < 1/2 then f
  else if 1/2 < frac then f + 1
  else if f % 2 = 0 then f else f + 1

/-- Python `round(q, 2)` idealised over `ℚ`. -/
def pyRound2 (q : ℚ) : ℚ := (pyRoundInt (q * 100) : ℚ) / 100

/-- Python `round(q, 3)` idealised over `ℚ`. -/
def pyRound3 (q : ℚ) : ℚ := (pyRoundInt (q * 1000) : ℚ) / 1000

/-! ## Cells: scalar values of a pandas column -/

/-- One cell of a tabular dataset.  `null` covers `None`/`NaN` (anything
`isnull` reports).  `dt` is a datetime, idealised as a day number.  `exotic`
is a value whose stringification (`astype(str)`) raises — it models the
objects that make the guarded Python code take its `except` branch. -/
inductive Cell where
  | null
  | str (s : String)
  | num (q : ℚ)
  | dt (d : Int)
  | boolVal (b : Bool)
  | exotic (tag : Nat)
deriving DecidableEq

/-- `pd.isnull` for one cell. -/
def Cell.isNull : Cell → Bool
  | .null => true
  | _ => false

/-- `astype(str)` for one cell; `none` models a raised exception.  The exact
rendering of numbers is an idealisation (no claim inspects it). -/
def Cell.toStrOpt : Cell → Option String
  | .null => some "nan"
  | .str s => some s
  | .num q => some (toString q)
  | .dt d => some (toString d)
  | .boolVal b => some (if b then "True" else "False")
  | .exotic _ => none

/-- The numeric payload of a cell, if any. -/
def Cell.toNumOpt : Cell → Option ℚ
  | .num q => some q
  | _ => none

/-- The datetime payload of a cell, if any. -/
def Cell.toDtOpt : Cell → Option Int
  | .dt d => some d
  | _ => none

/-! ## The three content regexes of `_detect_pii`, as backtracking matchers

`pandas.
Series.str.contains(pat, regex=True)` is `re.search`: the pattern may match
at any position.  Each matcher below enumerates, per start position, every
remainder reachable by the pattern's optional/repeated pieces, so a value
matches iff some choice of the pattern's alternatives matches. -/

/-- `\w` of Python `re` restricted to ASCII: letters, digits, underscore. -/
def isWordChar (c : Char) : Bool := c.isAlphanum || c == '_'

/-- A `\b` word boundary between an optional previous character and an
optional next character (absent characters count as non-word). -/
def boundaryOk (prev next : Option Char) : Bool :=
  let w : Option Char → Bool := fun o => match o with
    | some c => isWordChar c
    | none => false
  w prev != w next

/-- Character class `[A-Za-z0-9._%+-]` (local part of the email pattern). -/
def localClass (c : Char) : Bool :=
  c.isAlphanum || c == '.' || c == '_' || c == '%' || c == '+' || c == '-'

/-- Character class `[A-Za-z0-9.-]` (domain part of the email pattern). -/
def domainClass (c : Char) : Bool :=
  c.isAlphanum || c == '.' || c == '-'

/-- Character class `[A-Z|a-z]` of the email pattern — literally including
the bar character, as written in the source regex. -/
def tldClass (c : Char) : Bool :=
  ('A' ≤ c && c ≤ 'Z') || c == '|' || ('a' ≤ c && c ≤ 'z')

/-- All states `(last consumed char, remainder)` reachable by consuming one
or more characters of class `p` from the front of the list. -/
def plusStates (p : Char → Bool) : List Char → List (Option Char × List Char)
  | c :: t => if p c then (some c, t) :: plusStates p t else []
  | [] => []

/-- States reachable by consuming two or more characters of class `p`
(the `{2,}` quantifier). -/
def twoPlusStates (p : Char → Bool) : List Char → List (Option Char × List Char)
  | c :: t => if p c then plusStates p t else []
  | [] => []

/-- Does `\b[A-Za-z0-9._%+-]+@[A-Za-z0-9.-]+\.[A-Z|a-z]{2,}\b` match starting
exactly at the position whose preceding character is `prev` and whose
remaining input is `rest`? -/
def matchEmailAt (prev : Option Char) (rest : List Char) : Bool :=
  boundaryOk prev rest.head? &&
  (plusStates localClass rest).any (fun st =>
    match st.2 with
    | '@' :: t1 =>
      (plusStates domainClass t1).any (fun st2 =>
        match st2.2 with
        | '.' :: t2 =>
          (twoPlusStates tldClass t2).any (fun st3 => boundaryOk st3.1 st3.2.head?)
        | _ => false)
    | _ => false)

/-- Every suffix of the list, paired with the character just before it. -/
def tailsWithPrev (prev : Option Char) : List Char → List (Option Char × List Char)
  | [] => [(prev, [])]
  | c :: t => (prev, c :: t) :: tailsWithPrev (some c) t

/-- `re.search` of the email pattern of `_detect_pii`. -/
def matchesEmail (s : String) : Bool :=
  (tailsWithPrev none s.data).any (fun st => matchEmailAt st.1 st.2)

/-- `\s` (idealised to ASCII whitespace), `-` or `.` — the separator class
`[-.\s]` of the phone pattern. -/
def isSepChar (c : Char) : Bool := c == '-' || c == '.' || c.isWhitespace

/-- Consume exactly `n` digits. -/
def consumeDigits : Nat → List Char → Option (List Char)
  | 0, rest => some rest
  | n + 1, c :: t => if c.isDigit then consumeDigits n t else none
  | _ + 1, [] => none

/-- Remainders after `\d{1,3}`. -/
def digits1to3 (rest : List Char) : List (List Char) :=
  [1, 2, 3].filterMap (fun n => consumeDigits n rest)

/-- Remainders after the optional separator `[-.\s]?`. -/
def optSep (rest : List Char) : List (List Char) :=
  rest :: (match rest with
    | c :: t => if isSepChar c then [t] else []
    | [] => [])

/-- Remainders after an optional single character `c?`. -/
def optChar (c : Char) (rest : List Char) : List (List Char) :=
  rest :: (match rest with
    | d :: t => if d == c then [t] else []
    | [] => [])

/-- Remainders after the optional country-code group `(\+\d{1,3}[-.\s]?)?`
when the group is taken. -/
def countryStates (rest : List Char) : List (List Char) :=
  match rest with
  | '+' :: t => (digits1to3 t).flatMap optSep
  | _ => []

/-- Does `(\+\d{1,3}[-.\s]?)?\(?\d{3}\)?[-.\s]?\d{3}[-.\s]?\d{4}` match
starting exactly at `rest`? -/
def matchPhoneAt (rest : List Char) : Bool :=
  let s1 := rest :: countryStates rest
  let s2 := s1.flatMap (optChar '(')
  let s3 := s2.filterMap (consumeDigits 3)
  let s4 := s3.flatMap (optChar ')')
  let s5 := s4.flatMap optSep
  let s6 := s5.filterMap (consumeDigits 3)
  let s7 := s6.flatMap optSep
  s7.any (fun r => (consumeDigits 4 r).isSome)

/-- `re.search` of the phone pattern of `_detect_pii`. -/
def matchesPhone (s : String) : Bool :=
  s.data.tails.any matchPhoneAt

/-- Does `\d{3}-\d{2}-\d{4}` match starting exactly here? -/
def matchSSNAt : List Char → Bool
  | a :: b :: c :: '-' :: d :: e :: '-' :: f :: g :: h :: i :: _ =>
    [a, b, c, d, e, f, g, h, i].all Char.isDigit
  | _ => false

/-- `re.search` of the US SSN pattern of `_detect_pii`. -/
def matchesSSN (s : String) : Bool :=
  s.data.tails.any matchSSNAt

/-! ## `_detect_pii` and the bulk-import name rule -/

/-- The `pii_indicators` keyword list of `_detect_pii`. -/
def pii_indicators : List String :=
  ["email", "phone", "ssn", "social", "passport", "license",
   "address", "name", "firstname", "lastname", "surname",
   "dob", "birthdate", "birth_date", "credit_card", "account"]

/-- The name-based rule of `_detect_pii`: lower-case the column name and ask
whether any keyword occurs in it. -/
def nameHasPiiKeyword (column_name : String) : Bool :=
  let column_lower := toLowerStr column_name
  pii_indicators.any (fun indicator => hasSub column_lower indicator)

/-- The `contains_pii` keyword test of `bulk_import_fields` in
`routes/field_compliance.py`: the same shape of rule over a shorter list. -/
def bulk_contains_pii (field_name : String) : Bool :=
  ["name", "email", "phone", "address", "ssn", "social", "passport",
   "license"].any (fun keyword => hasSub (toLowerStr field_name) keyword)

/-- `series.dropna().head(100).astype(str)` — the stringified bounded sample
of `_detect_pii`; `none` models the stringification raising (the `except`
branch). -/
def sampleStrs (cells : List Cell) : Option (List String) :=
  let first100 := (cells.filter (fun c => !c.isNull)).take 100
  if first100.any (fun c => c.toStrOpt.isNone) then none
  else some (first100.filterMap Cell.toStrOpt)

/-- `_detect_pii(series, column_name)`: the name rule first; otherwise the
email, phone and SSN patterns over the bounded sample, in that order; an
empty sample, or a raised exception, yields `false`. -/
def detect_pii (cells : List Cell) (column_name : String) : Bool :=
  if nameHasPiiKeyword column_name then true
  else
    match sampleStrs cells with
    | none => false
    | some sample_data =>
      if sample_data.isEmpty then false
      else if sample_data.any matchesEmail then true
      else if sample_data.any matchesPhone then true
      else if sample_data.any matchesSSN then true
      else false

/-! ## Column statistics (`_analyze_numeric_column` and friends) -/

/-- Minimum of a list of rationals, `none` when empty (pandas `min` over the
non-null values: NaN — absent — when there are none). -/
def listMinQ : List ℚ → Option ℚ
  | [] => none
  | x :: xs => some (xs.foldl min x)

/-- Maximum of a list of rationals, `none` when empty. -/
def listMaxQ : List ℚ → Option ℚ
  | [] => none
  | x :: xs => some (xs.foldl max x)

/-- Mean of a list of rationals, `none` when empty. -/
def meanQ (xs : List ℚ) : Option ℚ :=
  if xs.isEmpty then none else some (xs.sum / (xs.length : ℚ))

/-- Insert into a list sorted ascending (stable). -/
def insertAsc (x : ℚ) : List ℚ → List ℚ
  | [] => [x]
  | y :: t => if x ≤ y then x :: y :: t else y :: insertAsc x t

/-- Insertion sort, ascending. -/
def sortAsc : List ℚ → List ℚ
  | [] => []
  | x :: t => insertAsc x (sortAsc t)

/-- Median (pandas convention: middle element, or mean of the two middle
elements), `none` when empty. -/
def medianQ (xs : List ℚ) : Option ℚ :=
  let s := sortAsc xs
  let n := s.length
  if n = 0 then none
  else if n % 2 = 1 then s.get? (n / 2)
  else match s.get? (n / 2 - 1), s.get? (n / 2) with
    | some a, some b => some ((a + b) / 2)
    | _, _ => none

/-- Sample variance (`ddof=1`), `none` when fewer than two values (pandas
`std` is NaN there).  The source stores `round(sqrt(variance), 2)`; the
square root is irrational in general, so the embedding keeps the rounded
radicand — every claim reads only whether the statistic is present. -/
def sampleVarQ (xs : List ℚ) : Option ℚ :=
  if xs.length < 2 then none
  else
    match meanQ xs with
    | none => none
    | some m => some ((xs.map (fun x => (x - m) * (x - m))).sum / ((xs.length : ℚ) - 1))

/-- The type-specific statistics block of a column profile.  `noBlock` is the
empty dictionary `{}` (unmatched dtype, empty non-null data, or a caught
exception); the numeric block always carries all five keys, each possibly
`None`/NaN (modelled as `none`). -/
inductive StatBlock where
  | noBlock
  | numeric (min_value max_value mean_value median_value std_value : Option ℚ)
  | text (min_length max_length : Nat) (avg_length : ℚ) (most_common : List Cell)
  | datetime (min_date max_date : String) (date_range_days : Int)
deriving DecidableEq

/-- A stat block that carries no values: the empty dictionary, or the
numeric block with every key `None`. -/
def StatBlock.isUnpopulated : StatBlock → Bool
  | .noBlock => true
  | .numeric a b c d e => a.isNone && b.isNone && c.isNone && d.isNone && e.isNone
  | _ => false

/-- `_analyze_numeric_column`: each entry is `None` when the series is empty,
otherwise the statistic over the non-null numeric values (NaN — no values —
also modelled `none`).  Mean and std are rounded to 2 decimals. -/
def analyze_numeric_column (cells : List Cell) : StatBlock :=
  let nums := cells.filterMap Cell.toNumOpt
  .numeric
    (if cells.isEmpty then none else listMinQ nums)
    (if cells.isEmpty then none else listMaxQ nums)
    (if cells.isEmpty then none else (meanQ nums).map pyRound2)
    (if cells.isEmpty then none else medianQ nums)
    (if cells.isEmpty then none else (sampleVarQ nums).map pyRound2)

/-- Keep the first occurrence of each distinct cell, in encounter order. -/
def firstDedupAux (seen : List Cell) : List Cell → List Cell
  | [] => []
  | c :: t => if c ∈ seen then firstDedupAux seen t else c :: firstDedupAux (c :: seen) t

/-- Distinct cells in first-encounter order. -/
def firstDedup (cells : List Cell) : List Cell :=
  firstDedupAux [] cells

/-- Stable insert, descending by count. -/
def insertByCountDesc (x : Cell × Nat) : List (Cell × Nat) → List (Cell × Nat)
  | [] => [x]
  | y :: t => if x.2 ≤ y.2 then y :: insertByCountDesc x t else x :: y :: t

/-- Stable insertion sort, descending by count. -/
def sortByCountDesc : List (Cell × Nat) → List (Cell × Nat)
  | [] => []
  | x :: t => insertByCountDesc x (sortByCountDesc t)

/-- `series.value_counts().head(5)...keys()`: the up-to-5 most frequent
non-null values, by descending count, ties in first-encounter order. -/
def mostCommon5 (cells : List Cell) : List Cell :=
  let nonNull := cells.filter (fun c => !c.isNull)
  let pairs := (firstDedup nonNull).map (fun v => (v, nonNull.count v))
  ((sortByCountDesc pairs).take 5).map (fun p => p.1)

/-- `_analyze_text_column`: `{}` when no non-null values, or when the
stringification raises; otherwise character-length min/max/avg (avg rounded
to 2 decimals) and the top-5 most common values. -/
def analyze_text_column (cells : List Cell) : StatBlock :=
  let nonNull := cells.filter (fun c => !c.isNull)
  if nonNull.isEmpty then .noBlock
  else if nonNull.any (fun c => c.toStrOpt.isNone) then .noBlock
  else
    let lens := (nonNull.filterMap Cell.toStrOpt).map String.length
    match lens with
    | [] => .noBlock
    | l :: ls =>
      .text (ls.foldl min l) (ls.foldl max l)
        (pyRound2 (((lens.map (fun n => (n : ℚ))).sum) / (lens.length : ℚ)))
        (mostCommon5 cells)

/-- Minimum of a list of integers, `none` when empty. -/
def listMinI : List Int → Option Int
  | [] => none
  | x :: xs => some (xs.foldl min x)

/-- Maximum of a list of integers, `none` when empty. -/
def listMaxI : List Int → Option Int
  | [] => none
  | x :: xs => some (xs.foldl max x)

/-- `_analyze_datetime_column`: `{}` when no non-null values; otherwise
min/max serialised (idealised `isoformat`) and the day span.  In a
`datetime64[ns]` column every non-null cell carries a datetime payload. -/
def analyze_datetime_column (cells : List Cell) : StatBlock :=
  let ds := cells.filterMap Cell.toDtOpt
  match listMinI ds, listMaxI ds with
  | some lo, some hi => .datetime (toString lo) (toString hi) (hi - lo)
  | _, _ => .noBlock

/-! ## `_analyze_column` -/

/-- The pandas dtype of a column, restricted to the tags the source
dispatches on. -/
inductive Dtype where
  | int64
  | float64
  | object
  | datetime64
  | other
deriving DecidableEq

/-- `str(series.dtype)`. -/
def dtypeStr : Dtype → String
  | .int64 => "int64"
  | .float64 => "float64"
  | .object => "object"
  | .datetime64 => "datetime64[ns]"
  | .other => "other"

/-- One pandas Series: its dtype and its cells in order. -/
structure Series where
  dtype : Dtype
  cells : List Cell
deriving DecidableEq

/-- Number of null cells (`series.isnull().sum()`). -/
def nullCount (cells : List Cell) : Nat :=
  (cells.filter Cell.isNull).length

/-- Number of non-null cells (`series.count()`). -/
def nonNullCount (cells : List Cell) : Nat :=
  (cells.filter (fun c => !c.isNull)).length

/-- `series.nunique()`: number of distinct non-null values. -/
def nunique (cells : List Cell) : Nat :=
  ((cells.filter (fun c => !c.isNull)).dedup).length

/-- The per-column profile dictionary built by `_analyze_column`. -/
structure ColInfo where
  name : String
  data_type : String
  non_null_count : Nat
  null_count : Nat
  null_percentage : ℚ
  unique_count : Nat
  is_unique : Bool
  contains_pii : Bool
  stats : StatBlock
deriving DecidableEq

/-- `_analyze_column(series, column_name)`. -/
def analyze_column (series : Series) (column_name : String) : ColInfo :=
  { name := column_name
    data_type := dtypeStr series.dtype
    non_null_count := nonNullCount series.cells
    null_count := nullCount series.cells
    null_percentage :=
      pyRound2 (if series.cells.length > 0 then
        (nullCount series.cells : ℚ) / (series.cells.length : ℚ) * 100
      else 0)
    unique_count := nunique series.cells
    is_unique := nunique series.cells == series.cells.length
    contains_pii := detect_pii series.cells column_name
    stats :=
      match series.dtype with
      | .int64 => analyze_numeric_column series.cells
      | .float64 => analyze_numeric_column series.cells
      | .object => analyze_text_column series.cells
      | .datetime64 => analyze_datetime_column series.cells
      | .other => .noBlock }

/-! ## `_analyze_dataframe` -/

/-- A pandas DataFrame: named columns over a common row count. -/
structure DataFrame where
  nrows : Nat
  cols : List (String × Series)
  hrect : ∀ p ∈ cols, p.2.cells.length = nrows

/-- Total null cells of the frame (`df.isnull().sum().sum()`). -/
def totalNulls (df : DataFrame) : Nat :=
  (df.cols.map (fun p => nullCount p.2.cells)).sum

/-- Row `i` of the frame, as the list of its cells in column order
(one record of `to_dict('records')`, the names being the column order). -/
def rowAt (df : DataFrame) (i : Nat) : List Cell :=
  df.cols.map (fun p => p.2.cells.getD i Cell.null)

/-- `df.duplicated().sum()`: rows equal to some earlier row. -/
def duplicateRowCount (df : DataFrame) : Nat :=
  ((List.range df.nrows).filter
    (fun i => (List.range i).any (fun j => rowAt df i == rowAt df j))).length

/-- The `data_quality` sub-dictionary of a sheet profile. -/
structure DataQuality where
  completeness : ℚ
  null_count : Nat
  duplicate_rows : Nat
deriving DecidableEq

/-- The sheet profile built by `_analyze_dataframe`. -/
structure SheetInfo where
  name : String
  row_count : Nat
  column_count : Nat
  columns : List ColInfo
  data_quality : DataQuality
  preview : List (List Cell)
deriving DecidableEq

/-- `_analyze_dataframe(df, sheet_name)`. -/
def analyze_dataframe (df : DataFrame) (sheet_name : String) : SheetInfo :=
  let total_cells := df.nrows * df.cols.length
  let null_count := totalNulls df
  { name := sheet_name
    row_count := df.nrows
    column_count := df.cols.length
    columns := df.cols.map (fun p => analyze_column p.2 p.1)
    data_quality :=
      { completeness :=
          pyRound2 (if total_cells > 0 then
            ((total_cells : ℚ) - (null_count : ℚ)) / (total_cells : ℚ) * 100
          else 0)
        null_count := null_count
        duplicate_rows := duplicateRowCount df }
    preview :=
      if df.nrows > 0 then (List.range (min 5 df.nrows)).map (rowAt df) else [] }

/-! ## `_analyze_excel`, `_analyze_csv`, `analyze_file` -/

/-- One entry of the `sheets` list of a file analysis: either a full sheet
profile, or — for a sheet whose load raised — a record carrying only the
sheet name and an error message. -/
inductive SheetResult where
  | ok (info : SheetInfo)
  | err (name error : String)
deriving DecidableEq

/-- The file-level analysis dictionary. -/
structure FileInfo where
  file_path : String
  file_size : Nat
  sheets : List SheetResult
  total_rows : Nat
  total_columns : Nat
  analysis_date : String
deriving DecidableEq

/-- The loop body of `_analyze_excel`: accumulate the sheet entries and the
row/column totals over the workbook's per-sheet load results (`Except.error`
models `pd.read_excel` raising for that sheet). -/
def analyzeSheets : List (String × Except String DataFrame) →
    List SheetResult × Nat × Nat
  | [] => ([], 0, 0)
  | (sheet_name, Except.ok df) :: rest =>
    let sheet_info := analyze_dataframe df sheet_name
    let (ss, r, c) := analyzeSheets rest
    (.ok sheet_info :: ss, sheet_info.row_count + r, sheet_info.column_count + c)
  | (sheet_name, Except.error e) :: rest =>
    let (ss, r, c) := analyzeSheets rest
    (.err sheet_name ("Could not analyze sheet: " ++ e) :: ss, r, c)

/-- `_analyze_excel`: `sheets` holds the per-sheet load results of the
workbook, `now` the `datetime.utcnow().isoformat()` value. -/
def analyze_excel (file_path : String) (file_size : Nat)
    (sheets : List (String × Except String DataFrame)) (now : String) : FileInfo :=
  let (ss, r, c) := analyzeSheets sheets
  { file_path := file_path
    file_size := file_size
    sheets := ss
    total_rows := r
    total_columns := c
    analysis_date := now }

/-- `_analyze_csv`: the whole file is one sheet named `Sheet1`. -/
def analyze_csv (file_path : String) (file_size : Nat) (df : DataFrame)
    (now : String) : FileInfo :=
  let sheet_info := analyze_dataframe df "Sheet1"
  { file_path := file_path
    file_size := file_size
    sheets := [.ok sheet_info]
    total_rows := sheet_info.row_count
    total_columns := sheet_info.column_count
    analysis_date := now }

/-- `self.supported_formats`. -/
def supported_formats : List String := [".xlsx", ".xls", ".csv"]

/-- The filesystem and pandas readers, abstracted as the observable inputs
of one call: whether the path exists (`os.path.exists`), its size
(`os.path.getsize`), the outcome of opening/loading the workbook or the CSV
(`pd.ExcelFile` + per-sheet `pd.read_excel`, `pd.read_csv`), and the outcome
of the validator's `nrows=1` probe reads. -/
structure FSFile where
  present : Bool
  size : Nat
  loadExcel : Except String (List (String × Except String DataFrame))
  loadCsv : Except String DataFrame
  readExcelFirst : Except String Unit
  readCsvFirst : Except String Unit

/-- The errors `analyze_file` can raise: `FileNotFoundError`, the
`ValueError` for an unsupported format, and the generic wrapper
`Exception(f"Error analyzing file: ...")`. -/
inductive AnalyzeError where
  | fileNotFound (msg : String)
  | unsupportedFormat (msg : String)
  | analysisError (msg : String)
deriving DecidableEq

/-- `analyze_file(file_path)`. -/
def analyze_file (fs : FSFile) (file_path : String) (now : String) :
    Except AnalyzeError FileInfo :=
  if !fs.present then
    .error (.fileNotFound ("File not found: " ++ file_path))
  else
    let file_ext := toLowerStr (pySplitextExt file_path)
    if !(supported_formats.contains file_ext) then
      .error (.unsupportedFormat ("Unsupported file format: " ++ file_ext))
    else if file_ext == ".csv" then
      match fs.loadCsv with
      | .ok df => .ok (analyze_csv file_path fs.size df now)
      | .error e => .error (.analysisError ("Error analyzing file: " ++ e))
    else
      match fs.loadExcel with
      | .ok sheets => .ok (analyze_excel file_path fs.size sheets now)
      | .error e => .error (.analysisError ("Error analyzing file: " ++ e))

/-! ## `validate_file_for_import` -/

/-- `validate_file_for_import(file_path)`.  A missing file returns
immediately; otherwise the format, size and first-record-read issues are
collected in order and `ok` is `len(issues) == 0`.  (The source's oversize
message interpolates the size in MB with one decimal; here it carries the
raw byte count.) -/
def validate_file_for_import (fs : FSFile) (file_path : String) :
    Bool × List String :=
  if !fs.present then (false, ["File does not exist"])
  else
    let file_ext := toLowerStr (pySplitextExt file_path)
    let issues1 :=
      if !(supported_formats.contains file_ext) then
        ["Unsupported file format: " ++ file_ext]
      else []
    let max_size := 50 * 1024 * 1024
    let issues2 := issues1 ++
      (if fs.size > max_size then
        ["File too large: " ++ toString fs.size ++ " bytes (max: 50MB)"]
      else [])
    let readResult := if file_ext == ".csv" then fs.readCsvFirst else fs.readExcelFirst
    let issues3 := issues2 ++
      (match readResult with
      | .ok _ => []
      | .error e => ["File read error: " ++ e])
    (issues3.isEmpty, issues3)

/-! ## `generate_asset_metadata` -/

/-- One column of `schema_info`. -/
structure ColSchema where
  name : String
  data_type : String
  nullable : Bool
  unique : Bool
  contains_pii : Bool
deriving DecidableEq

/-- One sheet of `schema_info`. -/
structure SheetSchema where
  name : String
  columns : List ColSchema
deriving DecidableEq

/-- The suggested asset metadata returned by `generate_asset_metadata`. -/
structure AssetMetadata where
  asset_name : String
  description : String
  source_system : String
  source_location : String
  schema_info : List SheetSchema
  row_count : Nat
  column_count : Nat
  sheet_count : Nat
  tags : List String
  data_quality_score : ℚ
  is_sensitive : Bool
  access_level : String
deriving DecidableEq

/-- `sheet.get('columns', [])`: the columns of a sheet entry, empty for an
errored sheet. -/
def sheetColumns : SheetResult → List ColInfo
  | .ok s => s.columns
  | .err _ _ => []

/-- `sheet.get('data_quality', {}).get('completeness', 0)`. -/
def sheetCompleteness : SheetResult → ℚ
  | .ok s => s.data_quality.completeness
  | .err _ _ => 0

/-- `'error' in sheet`. -/
def SheetResult.isErr : SheetResult → Bool
  | .ok _ => false
  | .err _ _ => true

/-- `generate_asset_metadata(file_analysis, asset_name)`.  A `none` or empty
caller-supplied name falls back to the file's base name without its
extension (`if not asset_name`). -/
def generate_asset_metadata (file_analysis : FileInfo)
    (asset_name : Option String) : AssetMetadata :=
  let base := pyBasename file_analysis.file_path
  let default_name :=
    String.mk (base.data.take (base.data.length - (pySplitextExt base).data.length))
  let resolved_name :=
    match asset_name with
    | none => default_name
    | some s => if s == "" then default_name else s
  let any_pii := file_analysis.sheets.any
    (fun sheet => (sheetColumns sheet).any (fun col => col.contains_pii))
  let tags :=
    (if file_analysis.sheets.any (fun sheet => sheetCompleteness sheet > 95) then
      ["high-quality"] else []) ++
    (if any_pii then ["contains-pii"] else []) ++
    (if file_analysis.total_rows > 10000 then ["large-dataset"] else [])
  let quality_scores :=
    (file_analysis.sheets.filter (fun s => !s.isErr)).map sheetCompleteness
  let data_quality_score :=
    if quality_scores.isEmpty then 0
    else quality_scores.sum / (quality_scores.length : ℚ) / 100
  { asset_name := resolved_name
    description := "Data asset generated from " ++ base
    source_system := "Excel/CSV Import"
    source_location := file_analysis.file_path
    schema_info := file_analysis.sheets.filterMap
      (fun sheet =>
        match sheet with
        | .err _ _ => none
        | .ok s => some
          { name := s.name
            columns := s.columns.map (fun col =>
              { name := col.name
                data_type := col.data_type
                nullable := col.null_count > 0
                unique := col.is_unique
                contains_pii := col.contains_pii }) })
    row_count := file_analysis.total_rows
    column_count := file_analysis.total_columns
    sheet_count := (file_analysis.sheets.filter (fun s => !s.isErr)).length
    tags := tags
    data_quality_score := pyRound3 data_quality_score
    is_sensitive := any_pii
    access_level := if any_pii then "Restricted" else "Internal" }

/-! ## Observation helpers used by the theorems -/

/-- Is a result the `FileNotFoundError` outcome? -/
def errIsNotFound : Except AnalyzeError FileInfo → Bool
  | .error (.fileNotFound _) => true
  | _ => false

/-- Is a result the unsupported-format outcome? -/
def errIsUnsupported : Except AnalyzeError FileInfo → Bool
  | .error (.unsupportedFormat _) => true
  | _ => false

/-- The sheet entry `_analyze_excel` records for one per-sheet load result. -/
def sheetOutcome (s : String × Except String DataFrame) : SheetResult :=
  match s.2 with
  | .ok df => .ok (analyze_dataframe df s.1)
  | .error e => .err s.1 ("Could not analyze sheet: " ++ e)

/-- The contribution of one per-sheet load result to `total_rows`:
its row count if it parsed, 0 otherwise. -/
def rowsContribution (s : String × Except String DataFrame) : Nat :=
  match s.2 with
  | .ok df => (analyze_dataframe df s.1).row_count
  | .error _ => 0

/-- The contribution of one per-sheet load result to `total_columns`. -/
def colsContribution (s : String × Except String DataFrame) : Nat :=
  match s.2 with
  | .ok df => (analyze_dataframe df s.1).column_count
  | .error _ => 0

/-! ## Arithmetic lemmas about the rounding model -/

theorem ratFloor_intCast (n : ℤ) : ratFloor (n : ℚ) = n := by
  simp [ratFloor, Rat.num_intCast, Rat.den_intCast, Int.fdiv_one]

theorem pyRoundInt_intCast (n : ℤ) : pyRoundInt (n : ℚ) = n := by
  simp only [pyRoundInt, ratFloor_intCast, sub_self]
  norm_num

theorem pyRound2_zero : pyRound2 0 = 0 := by
  have h : (0 : ℚ) * 100 = ((0 : ℤ) : ℚ) := by norm_num
  rw [pyRound2, h, pyRoundInt_intCast]
  norm_num

theorem pyRound2_hundred : pyRound2 100 = 100 := by
  have h : (100 : ℚ) * 100 = ((10000 : ℤ) : ℚ) := by norm_num
  rw [pyRound2, h, pyRoundInt_intCast]
  norm_num

/-! ## Structural lemmas -/

theorem nonNull_add_null (cells : List Cell) :
    nonNullCount cells + nullCount cells = cells.length := by
  induction cells with
  | nil => rfl
  | cons c t ih =>
    cases hc : c.isNull <;>
      simp [nonNullCount, nullCount, List.filter_cons, hc] at ih ⊢ <;>
      omega

theorem analyzeSheets_spec (sheets : List (String × Except String DataFrame)) :
    analyzeSheets sheets =
      (sheets.map sheetOutcome,
       (sheets.map rowsContribution).sum,
       (sheets.map colsContribution).sum) := by
  induction sheets with
  | nil => rfl
  | cons s rest ih =>
    obtain ⟨nm, r⟩ := s
    cases r <;> simp [analyzeSheets, ih, sheetOutcome, rowsContribution, colsContribution]

/-! ## Claim C1 -/

/-- C1 counterexample: a zero-row column whose name contains a PII keyword
still has `contains_pii = true` — the name-based rule of `_detect_pii` runs
before (and independently of) any look at the rows, so the claim's
"contains_pii == false … for every column name" fails. -/
theorem c1_zero_row_pii_cex :
    (⟨Dtype.object, []⟩ : Series).cells.length = 0 ∧
    (analyze_column ⟨Dtype.object, []⟩ "email").contains_pii = true :=
  ⟨rfl, by decide⟩

/-- C1 (amended): for every zero-row column, `null_percentage = 0`, the
type-specific stat block carries no values, and `contains_pii` equals the
name-based keyword rule applied to the column name (so it is `false`
exactly when the name contains no PII keyword). -/
theorem c1_zero_row_profile (s : Series) (column_name : String)
    (h : s.cells = []) :
    (analyze_column s column_name).null_percentage = 0 ∧
    (analyze_column s column_name).stats.isUnpopulated = true ∧
    (analyze_column s column_name).contains_pii = nameHasPiiKeyword column_name := by
  obtain ⟨dt, cells⟩ := s
  simp only at h
  subst h
  refine ⟨?_, ?_, ?_⟩
  · simp only [analyze_column, List.length_nil, gt_iff_lt, lt_irrefl, if_false]
    exact pyRound2_zero
  · cases dt <;> simp [analyze_column] <;> decide
  · show detect_pii [] column_name = nameHasPiiKeyword column_name
    cases hk : nameHasPiiKeyword column_name <;>
      simp [detect_pii, hk, sampleStrs]

/-- C1 witness: the amended statement evaluated on an empty `int64` column
named `email`. -/
theorem c1_zero_row_profile_wit :
    (analyze_column ⟨Dtype.int64, []⟩ "email").null_percentage = 0 ∧
    (analyze_column ⟨Dtype.int64, []⟩ "email").stats.isUnpopulated = true ∧
    (analyze_column ⟨Dtype.int64, []⟩ "email").contains_pii =
      nameHasPiiKeyword "email" :=
  c1_zero_row_profile ⟨Dtype.int64, []⟩ "email" rfl

/-! ## Claim C2 -/

/-- C2 counterexample: for a zero-row column the source computes
`series.nunique() == len(series)`, i.e. `0 == 0`, so `is_unique` is `true`,
not `false` as the claim states. -/
theorem c2_is_unique_cex :
    (⟨Dtype.float64, []⟩ : Series).cells.length = 0 ∧
    (analyze_column ⟨Dtype.float64, []⟩ "x").is_unique = true :=
  ⟨rfl, by decide⟩

/-- C2 (amended): `is_unique` is true iff `unique_count == row_count`, with
no extra `row_count > 0` condition; in particular a zero-row column has
`is_unique = true`. -/
theorem c2_is_unique_iff (s : Series) (column_name : String) :
    ((analyze_column s column_name).is_unique = true ↔
      (analyze_column s column_name).unique_count = s.cells.length) ∧
    (s.cells = [] → (analyze_column s column_name).is_unique = true) := by
  constructor
  · simp [analyze_column]
  · intro h
    simp [analyze_column, h, nunique]

/-- C2 witness: the amended statement's zero-row case evaluated on an empty
column. -/
theorem c2_is_unique_iff_wit :
    (analyze_column ⟨Dtype.object, []⟩ "x").is_unique = true :=
  (c2_is_unique_iff ⟨Dtype.object, []⟩ "x").2 rfl

/-! ## Claim C4 -/

/-- C4 counterexample: the per-column profiler's keyword list contains
`dob` but the bulk-import list does not, so the two name-based flags differ
on the field name `dob`. -/
theorem c4_keyword_sets_cex :
    nameHasPiiKeyword "dob" = true ∧ bulk_contains_pii "dob" = false :=
  ⟨by decide, by decide⟩

/-- C4 (amended): the bulk-import keyword set is a strict subset of the
profiler's, so the bulk-import name-based flag implies the profiler's
name-based flag — but not conversely (they differ on `dob`, `surname`,
`birthdate`, `credit_card`, `account`, …). -/
theorem c4_bulk_subset (field_name : String)
    (h : bulk_contains_pii field_name = true) :
    nameHasPiiKeyword field_name = true := by
  simp only [bulk_contains_pii, List.any_eq_true] at h
  obtain ⟨keyword, hmem, hsub⟩ := h
  have hsubset : ∀ kw ∈ ["name", "email", "phone", "address", "ssn", "social",
      "passport", "license"], kw ∈ pii_indicators := by decide
  simp only [nameHasPiiKeyword, List.any_eq_true]
  exact ⟨keyword, hsubset keyword hmem, hsub⟩

/-- C4 witness: the amended implication evaluated at the field name
`email`. -/
theorem c4_bulk_subset_wit :
    bulk_contains_pii "email" = true ∧ nameHasPiiKeyword "email" = true :=
  ⟨by decide, c4_bulk_subset "email" (by decide)⟩

/-! ## Claim C10 -/

/-- C10: for every column profile, `non_null_count + null_count` equals the
column's row count, and for a non-empty column `null_percentage` is the
null fraction times 100, rounded to 2 decimals. -/
theorem c10_column_counts (s : Series) (column_name : String) :
    (analyze_column s column_name).non_null_count +
      (analyze_column s column_name).null_count = s.cells.length ∧
    (s.cells.length > 0 →
      (analyze_column s column_name).null_percentage =
        pyRound2 ((nullCount s.cells : ℚ) / (s.cells.length : ℚ) * 100)) := by
  constructor
  · exact nonNull_add_null s.cells
  · intro h
    simp [analyze_column, h]

/-- C10 witness: the counts and the percentage evaluated on a two-row
column with one null. -/
theorem c10_column_counts_wit :
    ((⟨Dtype.object, [Cell.null, Cell.str "a"]⟩ : Series).cells.length > 0) ∧
    ((analyze_column ⟨Dtype.object, [Cell.null, Cell.str "a"]⟩ "x").non_null_count +
        (analyze_column ⟨Dtype.object, [Cell.null, Cell.str "a"]⟩ "x").null_count =
        (⟨Dtype.object, [Cell.null, Cell.str "a"]⟩ : Series).cells.length ∧
      (analyze_column ⟨Dtype.object, [Cell.null, Cell.str "a"]⟩ "x").null_percentage =
        pyRound2 ((nullCount [Cell.null, Cell.str "a"] : ℚ) /
          (([Cell.null, Cell.str "a"] : List Cell).length : ℚ) * 100)) :=
  ⟨by decide,
    (c10_column_counts ⟨Dtype.object, [Cell.null, Cell.str "a"]⟩ "x").1,
    (c10_column_counts ⟨Dtype.object, [Cell.null, Cell.str "a"]⟩ "x").2 (by decide)⟩

/-! ## Claim C3 -/

theorem any_or3 (l : List String) :
    l.any (fun v => matchesEmail v || matchesPhone v || matchesSSN v) =
      (l.any matchesEmail || l.any matchesPhone || l.any matchesSSN) := by
  induction l with
  | nil => rfl
  | cons v t ih =>
    simp only [List.any_cons, ih]
    simp [Bool.or_assoc, Bool.or_comm, Bool.or_left_comm]

theorem content_chain_eq_any (sample : List String) :
    (if sample.isEmpty then false
     else if sample.any matchesEmail then true
     else if sample.any matchesPhone then true
     else if sample.any matchesSSN then true
     else false) =
      sample.any (fun v => matchesEmail v || matchesPhone v || matchesSSN v) := by
  rw [any_or3]
  cases sample with
  | nil => rfl
  | cons v t =>
    cases ha : (v :: t).any matchesEmail <;>
      cases hb : (v :: t).any matchesPhone <;>
        cases hc : (v :: t).any matchesSSN <;>
          simp [ha, hb, hc]

/-- C3: `_detect_pii` is true iff the lower-cased column name contains a PII
keyword (in which case content is never inspected), or the stringification
of the first 100 non-null values succeeds and some sampled value matches the
email, phone or SSN pattern; a stringification failure (`sampleStrs = none`)
is swallowed and yields `false`, never an error. -/
theorem c3_detect_pii_spec (cells : List Cell) (column_name : String) :
    detect_pii cells column_name = true ↔
      (nameHasPiiKeyword column_name = true ∨
        ∃ sample, sampleStrs cells = some sample ∧
          ∃ v ∈ sample, (matchesEmail v || matchesPhone v || matchesSSN v) = true) := by
  cases hk : nameHasPiiKeyword column_name
  · cases hs : sampleStrs cells with
    | none => simp [detect_pii, hk, hs]
    | some sample =>
      simp only [detect_pii, hk, hs, Bool.false_eq_true, if_false]
      rw [content_chain_eq_any]
      simp [List.any_eq_true]
  · simp [detect_pii, hk]

/-! ## Claim C5 -/

/-- C5: `generate_asset_metadata` marks the asset sensitive iff some column
of some (successfully parsed) sheet has `contains_pii`, and the access level
is `Restricted` exactly when the asset is sensitive, `Internal` otherwise. -/
theorem c5_sensitivity (file_analysis : FileInfo) (asset_name : Option String) :
    ((generate_asset_metadata file_analysis asset_name).is_sensitive = true ↔
      ∃ sheet ∈ file_analysis.sheets,
        ∃ col ∈ sheetColumns sheet, col.contains_pii = true) ∧
    (generate_asset_metadata file_analysis asset_name).access_level =
      (if (generate_asset_metadata file_analysis asset_name).is_sensitive then
        "Restricted"
      else "Internal") := by
  constructor
  · simp [generate_asset_metadata, List.any_eq_true]
  · rfl

/-! ## Claim C6 -/

/-- C6 counterexample: for a missing file with an unsupported extension the
validator returns only `["File does not exist"]` — the applicable
unsupported-format issue is not accumulated, so the validator does
short-circuit on a missing file. -/
theorem c6_validator_cex :
    validate_file_for_import
        ⟨false, 0, Except.error "", Except.error "", Except.ok (), Except.ok ()⟩
        "/tmp/data.txt" = (false, ["File does not exist"]) ∧
    supported_formats.contains (toLowerStr (pySplitextExt "/tmp/data.txt")) = false :=
  ⟨rfl, by decide⟩

/-- C6 (amended): a missing file returns immediately with the single issue
`File does not exist`; for an existing file the unsupported-extension,
oversize and first-record-read issues are all collected in one pass, in
order; and in every case `ok` is true iff the issue list is empty. -/
theorem c6_validator_accumulates (fs : FSFile) (file_path : String) :
    ((validate_file_for_import fs file_path).1 = true ↔
      (validate_file_for_import fs file_path).2 = []) ∧
    (fs.present = false →
      validate_file_for_import fs file_path = (false, ["File does not exist"])) ∧
    (fs.present = true →
      (validate_file_for_import fs file_path).2 =
        (if !(supported_formats.contains (toLowerStr (pySplitextExt file_path))) then
          ["Unsupported file format: " ++ toLowerStr (pySplitextExt file_path)]
        else []) ++
        (if fs.size > 50 * 1024 * 1024 then
          ["File too large: " ++ toString fs.size ++ " bytes (max: 50MB)"]
        else []) ++
        (match (if toLowerStr (pySplitextExt file_path) == ".csv" then fs.readCsvFirst
                else fs.readExcelFirst) with
         | .ok _ => []
         | .error e => ["File read error: " ++ e])) := by
  refine ⟨?_, ?_, ?_⟩
  · cases hp : fs.present
    · simp [validate_file_for_import, hp]
    · simp [validate_file_for_import, hp, List.isEmpty_iff]
  · intro hp
    simp [validate_file_for_import, hp]
  · intro hp
    simp [validate_file_for_import, hp, List.append_assoc]

/-- C6 witness: the amended statement evaluated on an existing oversize file
with an unsupported extension whose probe read fails — all three issues are
reported together. -/
theorem c6_validator_wit :
    (validate_file_for_import
        ⟨true, 60 * 1024 * 1024, Except.error "", Except.error "",
          Except.error "boom", Except.ok ()⟩ "/tmp/data.txt").2 =
      ["Unsupported file format: .txt",
       "File too large: " ++ toString (60 * 1024 * 1024 : Nat) ++ " bytes (max: 50MB)",
       "File read error: boom"] := by
  have h := (c6_validator_accumulates
    ⟨true, 60 * 1024 * 1024, Except.error "", Except.error "",
      Except.error "boom", Except.ok ()⟩ "/tmp/data.txt").2.2 rfl
  simpa using h

/-! ## Claim C7 -/

/-- C7: `analyze_file` raises `FileNotFoundError` exactly when the path
does not resolve, and — for an existing path — raises the
unsupported-format error (the source's `ValueError`, the spec's
`UnsupportedFormatError`) exactly when the lower-cased extension is not one
of `.xlsx`, `.xls`, `.csv`; otherwise neither of these errors occurs. -/
theorem c7_analyze_errors (fs : FSFile) (file_path now : String) :
    errIsNotFound (analyze_file fs file_path now) = !fs.present ∧
    (fs.present = true →
      errIsUnsupported (analyze_file fs file_path now) =
        !(supported_formats.contains (toLowerStr (pySplitextExt file_path)))) := by
  cases hp : fs.present
  · exact ⟨by simp [analyze_file, hp, errIsNotFound], by simp [hp]⟩
  · by_cases hc : toLowerStr (pySplitextExt file_path) ∈ supported_formats
    · by_cases he : toLowerStr (pySplitextExt file_path) = ".csv"
      · have hcsv : (".csv" : String) ∈ supported_formats := by decide
        cases hl : fs.loadCsv <;>
          exact ⟨by simp [analyze_file, hp, hc, he, hl, hcsv, errIsNotFound],
            fun _ => by simp [analyze_file, hp, hc, he, hl, hcsv, errIsUnsupported]⟩
      · cases hl : fs.loadExcel <;>
          exact ⟨by simp [analyze_file, hp, hc, he, hl, errIsNotFound],
            fun _ => by simp [analyze_file, hp, hc, he, hl, errIsUnsupported]⟩
    · exact ⟨by simp [analyze_file, hp, hc, errIsNotFound],
        fun _ => by simp [analyze_file, hp, hc, errIsUnsupported]⟩

/-- C7 witness: an existing file with extension `.txt` yields the
unsupported-format error, and an existing supported path does not. -/
theorem c7_analyze_errors_wit :
    errIsUnsupported
        (analyze_file
          ⟨true, 0, Except.error "", Except.error "", Except.ok (), Except.ok ()⟩
          "/tmp/data.txt" "t") =
      !(supported_formats.contains (toLowerStr (pySplitextExt "/tmp/data.txt"))) :=
  (c7_analyze_errors
    ⟨true, 0, Except.error "", Except.error "", Except.ok (), Except.ok ()⟩
    "/tmp/data.txt" "t").2 rfl

/-! ## Claim C8 -/

/-- C8: `_analyze_excel` keeps one entry per input sheet — a failed load is
recorded as a name/error entry, a successful one as its full profile — and
`total_rows` / `total_columns` are the sums of the per-sheet counts in which
failed sheets contribute 0 while remaining listed. -/
theorem c8_sheet_error_isolation (file_path : String) (file_size : Nat)
    (sheets : List (String × Except String DataFrame)) (now : String) :
    (analyze_excel file_path file_size sheets now).sheets =
      sheets.map sheetOutcome ∧
    (analyze_excel file_path file_size sheets now).sheets.length = sheets.length ∧
    (analyze_excel file_path file_size sheets now).total_rows =
      (sheets.map rowsContribution).sum ∧
    (analyze_excel file_path file_size sheets now).total_columns =
      (sheets.map colsContribution).sum := by
  simp [analyze_excel, analyzeSheets_spec]

/-! ## Claim C9 -/

/-- C9: sheet completeness is `(total_cells − null_count) / total_cells ×
100` rounded to 2 decimals where `total_cells = row_count × column_count`
and `null_count` is the total number of null cells; it is 0 when
`total_cells = 0`, and exactly 100 when no column has nulls and
`total_cells > 0`. -/
theorem c9_completeness (df : DataFrame) (sheet_name : String) :
    (analyze_dataframe df sheet_name).data_quality.null_count = totalNulls df ∧
    (df.nrows * df.cols.length > 0 →
      (analyze_dataframe df sheet_name).data_quality.completeness =
        pyRound2 ((((df.nrows * df.cols.length : Nat) : ℚ) - (totalNulls df : ℚ)) /
          ((df.nrows * df.cols.length : Nat) : ℚ) * 100)) ∧
    (df.nrows * df.cols.length = 0 →
      (analyze_dataframe df sheet_name).data_quality.completeness = 0) ∧
    ((∀ p ∈ df.cols, nullCount p.2.cells = 0) → df.nrows * df.cols.length > 0 →
      (analyze_dataframe df sheet_name).data_quality.completeness = 100) := by
  refine ⟨rfl, ?_, ?_, ?_⟩
  · intro h
    simp [analyze_dataframe, h]
  · intro h
    simp [analyze_dataframe, h, pyRound2_zero]
  · intro hcols hpos
    have hnc : totalNulls df = 0 := by
      refine List.sum_eq_zero ?_
      intro x hx
      simp only [List.mem_map] at hx
      obtain ⟨p, hp, rfl⟩ := hx
      exact hcols p hp
    have htc : ((df.nrows * df.cols.length : Nat) : ℚ) ≠ 0 :=
      Nat.cast_ne_zero.mpr (by omega)
    have h100 : (((df.nrows * df.cols.length : Nat) : ℚ) - ((0 : Nat) : ℚ)) /
        ((df.nrows * df.cols.length : Nat) : ℚ) * 100 = 100 := by
      rw [Nat.cast_zero, sub_zero, div_self htc, one_mul]
    simp only [analyze_dataframe, hnc, hpos, if_true, gt_iff_lt]
    rw [h100, pyRound2_hundred]

/-- C9 witness: a 1×1 frame with no nulls has completeness exactly 100. -/
theorem c9_completeness_wit :
    (∀ p ∈ (⟨1, [("a", ⟨Dtype.int64, [Cell.num 1]⟩)], by decide⟩ : DataFrame).cols,
      nullCount p.2.cells = 0) ∧
    (analyze_dataframe
        (⟨1, [("a", ⟨Dtype.int64, [Cell.num 1]⟩)], by decide⟩ : DataFrame)
        "s").data_quality.completeness = 100 :=
  ⟨by decide,
    (c9_completeness
      (⟨1, [("a", ⟨Dtype.int64, [Cell.num 1]⟩)], by decide⟩ : DataFrame)
      "s").2.2.2 (by decide) (by decide)⟩
